import Mathlib

/-!
Shallow embedding of the Lumiere dashboard data-processing core
(`src/utils/group_reconstruction.py`, `src/utils/data_processing.py`,
`src/utils/firebase_client.py`) and proofs about the properties its
specification states.

Python machine model used throughout:
* a dict field read with `event.get(key, default)` is embedded as a record
  field whose default value is the Python default;
* Python `None` / absent values are `Option.none`;
* Python numbers are embedded as `ℚ` (all arithmetic in these modules is
  exact: sums, differences and division by 1000 / 1e9);
* an uncaught Python exception is `Except.error`.
-/

/-- A Python scalar value as it appears in the loosely-typed event fields
(`p` may hold a page-name string, an integer product id, or a string product
id). -/
inductive PyVal where
  | int (n : ℤ)
  | str (s : String)
  deriving Repr, DecidableEq

/-- Python truthiness of a `PyVal` (`if product_id:`): `0` and `""` are
falsy, everything else truthy. -/
def PyVal.truthy : PyVal → Bool
  | .int n => n != 0
  | .str s => s != ""

/-- Python `int(x)` coercion; `none` models a raised
`ValueError`/`TypeError`. -/
def pyInt : PyVal → Option ℤ
  | .int n => some n
  | .str s => s.toInt?

/-- The guarded product-id coercion both modules perform:
`if product_id: try: pid = int(product_id) except (ValueError, TypeError): pass`.
Returns `none` when the value is absent, falsy, or fails coercion. -/
def coercedPid : Option PyVal → Option ℤ
  | none => none
  | some v => if v.truthy then pyInt v else none

/-- One element of a session's `events` list, with each field read through
`event.get` and its Python default baked in: `e := event.get("e", "")`,
`t := event.get("t", 0)`, `p := event.get("p")`, `d := event.get("d", 0)`,
`v := event.get("v")`, `rotations := event.get("rotations", 0)`,
`zooms := event.get("zooms", 0)`. -/
structure Event where
  e : String := ""
  t : ℚ := 0
  p : Option PyVal := none
  d : ℚ := 0
  v : Option ℤ := none
  rotations : ℚ := 0
  zooms : ℚ := 0
  deriving Repr, DecidableEq

/-! ### `src/utils/group_reconstruction.py` -/

/-- Module constant `LOW_VARIETY_PRODUCTS = {1, 6, 10, 11, 14}`. -/
def LOW_VARIETY_PRODUCTS : Finset ℤ := {1, 6, 10, 11, 14}

/-- Module constant `HIGH_VARIETY_PRODUCTS = {1, ..., 15}`. -/
def HIGH_VARIETY_PRODUCTS : Finset ℤ :=
  {1, 2, 3, 4, 5, 6, 7, 8, 9, 10, 11, 12, 13, 14, 15}

/-- Module constant `HIGH_VARIETY_EXCLUSIVE = {2,3,4,5,7,8,9,12,13,15}`. -/
def HIGH_VARIETY_EXCLUSIVE : Finset ℤ := {2, 3, 4, 5, 7, 8, 9, 12, 13, 15}

/-- The signal bundle built by `get_reconstruction_signals`, with the
initial values of the Python dict as field defaults. -/
structure Signals where
  has_ar_events : Bool := false
  ar_event_count : ℕ := 0
  has_high_variety_exclusive : Bool := false
  high_variety_exclusive_products : Finset ℤ := ∅
  unique_products_viewed : Finset ℤ := ∅
  scroll_time_after_gallery : Option ℚ := none
  gallery_view_time : Option ℚ := none
  scroll_to_bottom_time : Option ℚ := none
  group_from_event : Option ℤ := none
  deriving DecidableEq

/-- Loop branch: `if event_type in ("ar_start", "ar_end")`. -/
def arSigStep (s : Signals) (ev : Event) : Signals :=
  if ev.e = "ar_start" ∨ ev.e = "ar_end" then
    { s with has_ar_events := true, ar_event_count := s.ar_event_count + 1 }
  else s

/-- Loop branch: `if event_type == "group_assigned"`. -/
def groupEventStep (s : Signals) (ev : Event) : Signals :=
  if ev.e = "group_assigned" then { s with group_from_event := ev.v } else s

/-- Loop branch: `if event_type == "view_page" and event.get("p") == "gallery"`.
The assignment overwrites any previously recorded timestamp. -/
def galleryTimeStep (s : Signals) (ev : Event) : Signals :=
  if ev.e = "view_page" ∧ ev.p = some (.str "gallery") then
    { s with gallery_view_time := some ev.t }
  else s

/-- Loop branch: `if event_type == "scroll_to_bottom"`; the assignment
overwrites any previously recorded timestamp. -/
def scrollTimeStep (s : Signals) (ev : Event) : Signals :=
  if ev.e = "scroll_to_bottom" then
    { s with scroll_to_bottom_time := some ev.t }
  else s

/-- The shared body of the two product-tracking branches: add the coerced
product id to `unique_products_viewed` and flag/record it when it lies in
`HIGH_VARIETY_EXCLUSIVE`. -/
def addProductSignal (s : Signals) (pid : ℤ) : Signals :=
  let s1 := { s with unique_products_viewed := insert pid s.unique_products_viewed }
  if pid ∈ HIGH_VARIETY_EXCLUSIVE then
    { s1 with has_high_variety_exclusive := true,
              high_variety_exclusive_products :=
                insert pid s1.high_variety_exclusive_products }
  else s1

/-- Loop branches: `if event_type == "view"` and
`if event_type in ("cart_add_detail", "cart_add_gallery", "cart_remove")`,
each applying the guarded coercion then `addProductSignal`. -/
def productTouchStep (s : Signals) (ev : Event) : Signals :=
  let s1 :=
    if ev.e = "view" then
      match coercedPid ev.p with
      | some pid => addProductSignal s pid
      | none => s
    else s
  if ev.e = "cart_add_detail" ∨ ev.e = "cart_add_gallery" ∨ ev.e = "cart_remove" then
    match coercedPid ev.p with
    | some pid => addProductSignal s1 pid
    | none => s1
  else s1

/-- One iteration of the `for event in events` loop of
`get_reconstruction_signals`. -/
def signalsStep (s : Signals) (ev : Event) : Signals :=
  productTouchStep (scrollTimeStep (galleryTimeStep (groupEventStep (arSigStep s ev) ev) ev) ev) ev

/-- The post-loop fix-up of `get_reconstruction_signals`: when both
timestamps were observed, `scroll_time_after_gallery` is their difference
divided by 1000 (seconds). -/
def scrollFixup (s : Signals) : Signals :=
  match s.gallery_view_time, s.scroll_to_bottom_time with
  | some g, some b => { s with scroll_time_after_gallery := some ((b - g) / 1000) }
  | _, _ => s

/-- Embedding of `get_reconstruction_signals(events)`: early return of the defaults on an
empty list, otherwise the loop followed by the `scroll_time_after_gallery`
fix-up. -/
def get_reconstruction_signals (events : List Event) : Signals :=
  if events = [] then {}
  else scrollFixup (events.foldl signalsStep {})

/-- Embedding of `reconstruct_group(signals)`: the priority-ordered rule cascade,
returning `(group, method, confidence)`. -/
def reconstruct_group (signals : Signals) : Option ℤ × String × ℚ :=
  match signals.group_from_event with
  | some g => (some g, "group_assigned_event", 1)
  | none =>
    let has_ar := signals.has_ar_events
    let has_high_variety := signals.has_high_variety_exclusive
    let product_count := signals.unique_products_viewed.card
    let scroll_time := signals.scroll_time_after_gallery
    if has_ar ∧ has_high_variety then
      (some 4, "ar_events + high_variety_products", 1)
    else if has_ar ∧ ¬has_high_variety then
      if product_count > 0 then (some 2, "ar_events + no_high_variety_products", 9/10)
      else (some 2, "ar_events_only", 7/10)
    else if has_high_variety ∧ ¬has_ar then
      (some 3, "high_variety_products + no_ar", 1)
    else if product_count > 5 then
      (some 3, "product_count_exceeds_5", 8/10)
    else
      match scroll_time with
      | some st =>
          if st < 3 then (some 1, "fast_scroll_time", 6/10)
          else if st > 6 then (some 3, "slow_scroll_time", 1/2)
          else (none, "insufficient_signals", 0)
      | none => (none, "insufficient_signals", 0)

/-- The per-row input of `reconstruct_groups`: the explicit `group` label
(`none` covers an absent key, a stored `None`, and `NaN` — exactly the
values on which `pd.notna` is false) and the raw `events` list. -/
structure Session where
  group : Option ℤ := none
  events : List Event := []
  deriving Repr, DecidableEq

/-- The columns appended by `reconstruct_groups` for one row. -/
structure ReconRow where
  group_reconstructed : Option ℤ
  group_final : Option ℤ
  reconstruction_method : String
  reconstruction_confidence : ℚ
  reconstruction_signals : Signals
  deriving DecidableEq

/-- One iteration of the `for _, row in df.iterrows()` loop of
`reconstruct_groups`:
`group_final = original_group if pd.notna(original_group) else reconstructed`,
`reconstruction_method = method if pd.isna(original_group) else "original"`,
`reconstruction_confidence = confidence if pd.isna(original_group) else 1.0`. -/
def reconstructRow (row : Session) : ReconRow :=
  let signals := get_reconstruction_signals row.events
  let r := reconstruct_group signals
  { group_reconstructed := r.1
    group_final := match row.group with
                   | some g => some g
                   | none => r.1
    reconstruction_method := match row.group with
                             | some _ => "original"
                             | none => r.2.1
    reconstruction_confidence := match row.group with
                                 | some _ => 1
                                 | none => r.2.2
    reconstruction_signals := signals }

/-- Embedding of `reconstruct_groups(df)` row-wise: the appended columns for each row. -/
def reconstruct_groups (rows : List Session) : List ReconRow :=
  rows.map reconstructRow

/-! ### `src/utils/data_processing.py` -/

/-- The fixed-shape record returned by `extract_event_metrics`. -/
structure Metrics where
  total_ar_time_sec : ℚ
  ar_session_count : ℕ
  unique_products_viewed : ℕ
  cart_additions : ℕ
  cart_removals : ℕ
  page_views : ℕ
  avg_ar_duration_sec : Option ℚ
  total_ar_rotations : ℚ
  total_ar_zooms : ℚ
  time_on_gallery_sec : Option ℚ
  time_on_detail_sec : Option ℚ
  scrolled_to_bottom : Bool
  deriving DecidableEq

/-- The mutable loop state of `extract_event_metrics`: the `metrics` dict
entries accumulated in the loop plus the local variables
`products_viewed`, `ar_durations`, `gallery_start`, `gallery_time`,
`detail_start`, `detail_time`, `last_page`, with their initial values. -/
structure MState where
  total_ar_time_sec : ℚ := 0
  ar_session_count : ℕ := 0
  cart_additions : ℕ := 0
  cart_removals : ℕ := 0
  page_views : ℕ := 0
  total_ar_rotations : ℚ := 0
  total_ar_zooms : ℚ := 0
  scrolled_to_bottom : Bool := false
  products_viewed : Finset ℤ := ∅
  ar_durations : List ℚ := []
  gallery_start : Option ℚ := none
  gallery_time : ℚ := 0
  detail_start : Option ℚ := none
  detail_time : ℚ := 0
  last_page : Option PyVal := none
  deriving DecidableEq

/-- Loop branch `if event_type == "view_page"`: bump `page_views`, attribute
the elapsed time to the page recorded in `last_page` (the `elif` runs only
when the first condition fails), open the timer of the new page (any page
other than `gallery`/`detail` clears both timers), and record `last_page`. -/
def pageStep (st : MState) (ev : Event) : MState :=
  if ev.e = "view_page" then
    let page := ev.p
    let gallery_time :=
      if st.last_page = some (.str "gallery") ∧ st.gallery_start.isSome then
        st.gallery_time + (ev.t - st.gallery_start.getD 0)
      else st.gallery_time
    let detail_time :=
      if ¬(st.last_page = some (.str "gallery") ∧ st.gallery_start.isSome) ∧
          st.last_page = some (.str "detail") ∧ st.detail_start.isSome then
        st.detail_time + (ev.t - st.detail_start.getD 0)
      else st.detail_time
    let gallery_start :=
      if page = some (.str "gallery") then some ev.t
      else if page = some (.str "detail") then st.gallery_start
      else none
    let detail_start :=
      if page = some (.str "gallery") then st.detail_start
      else if page = some (.str "detail") then some ev.t
      else none
    { st with page_views := st.page_views + 1,
              gallery_time := gallery_time, detail_time := detail_time,
              gallery_start := gallery_start, detail_start := detail_start,
              last_page := page }
  else st

/-- Loop branch `if event_type == "view"`: guarded coercion of the product
id into `products_viewed`. -/
def viewStep (st : MState) (ev : Event) : MState :=
  if ev.e = "view" then
    match coercedPid ev.p with
    | some pid => { st with products_viewed := insert pid st.products_viewed }
    | none => st
  else st

/-- Loop branch `if event_type == "ar_end"`: bump the session count; when
the reported duration is truthy (nonzero), append `d / 1000` to the duration
list and accumulate it; always accumulate rotations and zooms. -/
def arStep (st : MState) (ev : Event) : MState :=
  if ev.e = "ar_end" then
    let durs := if ev.d ≠ 0 then st.ar_durations ++ [ev.d / 1000] else st.ar_durations
    let tot := if ev.d ≠ 0 then st.total_ar_time_sec + ev.d / 1000 else st.total_ar_time_sec
    { st with ar_session_count := st.ar_session_count + 1,
              ar_durations := durs, total_ar_time_sec := tot,
              total_ar_rotations := st.total_ar_rotations + ev.rotations,
              total_ar_zooms := st.total_ar_zooms + ev.zooms }
  else st

/-- Loop branches counting cart actions. -/
def cartStep (st : MState) (ev : Event) : MState :=
  let st1 := if ev.e = "cart_add_detail" ∨ ev.e = "cart_add_gallery" then
               { st with cart_additions := st.cart_additions + 1 }
             else st
  if ev.e = "cart_remove" then { st1 with cart_removals := st1.cart_removals + 1 } else st1

/-- Loop branch `if event_type == "scroll_to_bottom"`. -/
def scrollStep (st : MState) (ev : Event) : MState :=
  if ev.e = "scroll_to_bottom" then { st with scrolled_to_bottom := true } else st

/-- One iteration of the `for event in events` loop of
`extract_event_metrics`. -/
def metricsStep (st : MState) (ev : Event) : MState :=
  scrollStep (cartStep (arStep (viewStep (pageStep st ev) ev) ev) ev) ev

/-- Embedding of `np.mean` on a list of rationals. -/
def listMean (l : List ℚ) : ℚ := l.sum / l.length

/-- Embedding of `extract_event_metrics(events)`: the early-return record on an empty
list, otherwise the loop followed by the final derived entries
(`unique_products_viewed` cardinality, mean AR duration only when the
duration list is non-empty, page dwell times only when positive). -/
def extract_event_metrics (events : List Event) : Metrics :=
  if events = [] then
    { total_ar_time_sec := 0, ar_session_count := 0, unique_products_viewed := 0,
      cart_additions := 0, cart_removals := 0, page_views := 0,
      avg_ar_duration_sec := none, total_ar_rotations := 0, total_ar_zooms := 0,
      time_on_gallery_sec := none, time_on_detail_sec := none,
      scrolled_to_bottom := false }
  else
    let st := events.foldl metricsStep {}
    { total_ar_time_sec := st.total_ar_time_sec
      ar_session_count := st.ar_session_count
      unique_products_viewed := st.products_viewed.card
      cart_additions := st.cart_additions
      cart_removals := st.cart_removals
      page_views := st.page_views
      avg_ar_duration_sec :=
        if st.ar_durations ≠ [] then some (listMean st.ar_durations) else none
      total_ar_rotations := st.total_ar_rotations
      total_ar_zooms := st.total_ar_zooms
      time_on_gallery_sec :=
        if st.gallery_time > 0 then some (st.gallery_time / 1000) else none
      time_on_detail_sec :=
        if st.detail_time > 0 then some (st.detail_time / 1000) else none
      scrolled_to_bottom := st.scrolled_to_bottom }

/-- The `variety` lambda of `create_derived_variables`, applied to the
`group` column: `"low" if g in [1, 2] else ("high" if g in [3, 4] else None)`
(a `None`/absent `g` is in neither list). -/
def varietyOf (g : Option ℤ) : Option String :=
  if g = some 1 ∨ g = some 2 then some "low"
  else if g = some 3 ∨ g = some 4 then some "high"
  else none

/-- The `ar_enabled` lambda of `create_derived_variables`, applied to the
`group` column: `True if g in [2, 4] else (False if g in [1, 3] else None)`. -/
def arEnabledOf (g : Option ℤ) : Option Bool :=
  if g = some 2 ∨ g = some 4 then some true
  else if g = some 1 ∨ g = some 3 then some false
  else none

/-! ### Module loading (`from .group_reconstruction import merge_group_fields`)

`src/utils/data_processing.py` line 8 imports the name `merge_group_fields`
from `src/utils/group_reconstruction.py`.  The importable top-level names of
that module are exactly the two imported names and the six definitions in
the file. -/

/-- The top-level bindings of `src/utils/group_reconstruction.py`, in source
order: the two imports (`Optional`, `pd`) followed by the three module
constants and the three function definitions. -/
def group_reconstruction_names : List String :=
  ["Optional", "pd",
   "LOW_VARIETY_PRODUCTS", "HIGH_VARIETY_PRODUCTS", "HIGH_VARIETY_EXCLUSIVE",
   "get_reconstruction_signals", "reconstruct_group", "reconstruct_groups"]

/-- Executing the module-level statement
`from .group_reconstruction import merge_group_fields` succeeds exactly when
the name is bound in the source module; otherwise Python raises
`ImportError` and `utils.data_processing` never finishes loading. -/
def import_merge_group_fields : Except String Unit :=
  if group_reconstruction_names.contains "merge_group_fields" then Except.ok ()
  else Except.error "ImportError"

/-- Outcome of invoking `sessions_to_dataframe(sessions)`: the call can only
run once `utils.data_processing` has loaded, which requires the module-level
statement importing `merge_group_fields` to succeed; the result records that
failure or completion of the call. -/
def run_sessions_to_dataframe (_sessions : List Session) : Except String Unit :=
  match import_merge_group_fields with
  | Except.error e => Except.error e
  | Except.ok () => Except.ok ()

/-- Outcome of invoking `create_derived_variables(df)`: gated on loading
`utils.data_processing` exactly like `run_sessions_to_dataframe`. -/
def run_create_derived_variables (_rows : List Session) : Except String Unit :=
  match import_merge_group_fields with
  | Except.error e => Except.error e
  | Except.ok () => Except.ok ()

/-! ### `export_to_csv` (`src/utils/data_processing.py`)

A pandas `DataFrame` is embedded column-major: a list of named columns,
each column carrying its list of cell values (all columns of a well-formed
frame have the same length — the row count). -/

/-- Column-major embedding of a pandas `DataFrame`. -/
structure DataFrame (α : Type) where
  cols : List (String × List α)
  deriving DecidableEq

/-- Embedding of `df.drop(columns=[name])`: removes every column with that name. -/
def DataFrame.dropColumn {α : Type} (df : DataFrame α) (name : String) : DataFrame α :=
  ⟨df.cols.filter (fun c => c.1 ≠ name)⟩

/-- Embedding of the membership test `name in df.columns`. -/
def DataFrame.hasColumn {α : Type} (df : DataFrame α) (name : String) : Bool :=
  df.cols.any (fun c => c.1 = name)

/-- The loop body of `export_to_csv`:
`if col in export_df.columns: export_df = export_df.drop(columns=[col])`. -/
def dropIfPresent {α : Type} (df : DataFrame α) (col : String) : DataFrame α :=
  if df.hasColumn col then df.dropColumn col else df

/-- The frame serialized by `export_to_csv(df, include_events)`:
`columns_to_drop` is `["events", "final_cart"]` unless `include_events`,
and each listed column is dropped when present. -/
def export_to_csv_frame {α : Type} (df : DataFrame α) (include_events : Bool) :
    DataFrame α :=
  let columns_to_drop : List String :=
    if include_events then [] else ["events", "final_cart"]
  columns_to_drop.foldl dropIfPresent df

/-- A naive rendering of `export_df.to_csv(index=False)`: the header line,
then row `i` of every column, comma-separated. -/
def to_csv (df : DataFrame String) : String :=
  let header := String.intercalate "," (df.cols.map (·.1))
  let nrows := (df.cols.map (fun c => c.2.length)).foldr max 0
  let rows := (List.range nrows).map (fun i =>
    String.intercalate "," (df.cols.map (fun c => c.2.getD i "")))
  String.intercalate "\n" (header :: rows)

/-- Embedding of `export_to_csv(df, include_events)` returning the CSV string. -/
def export_to_csv (df : DataFrame String) (include_events : Bool) : String :=
  to_csv (export_to_csv_frame df include_events)

/-! ### `firestore_timestamp_to_datetime` (`src/utils/firebase_client.py`) -/

/-- A value stored under a key of a timestamp mapping: a number, a string,
or a stored `None`. -/
inductive TSVal where
  | num (q : ℚ)
  | str (s : String)
  | null
  deriving DecidableEq

/-- The input shapes `firestore_timestamp_to_datetime` can receive:
`None`; a dict; a native timestamp object exposing `.timestamp()` (embedded
by the epoch value that call returns); anything else (no `timestamp`
attribute). -/
inductive TSInput where
  | null
  | dict (entries : List (String × TSVal))
  | native (epoch : ℚ)
  | other
  deriving DecidableEq

/-- Embedding of `ts.get(key, default)` on the embedded dict. -/
def tsGet (entries : List (String × TSVal)) (key : String) (dflt : TSVal) : TSVal :=
  match entries.lookup key with
  | some v => v
  | none => dflt

/-- Embedding of `ts.get("_seconds", ts.get("seconds", 0))`. -/
def secondsOf (entries : List (String × TSVal)) : TSVal :=
  tsGet entries "_seconds" (tsGet entries "seconds" (.num 0))

/-- Embedding of `ts.get("_nanoseconds", ts.get("nanoseconds", 0))`. -/
def nanosOf (entries : List (String × TSVal)) : TSVal :=
  tsGet entries "_nanoseconds" (tsGet entries "nanoseconds" (.num 0))

/-- Embedding of `firestore_timestamp_to_datetime(ts)`: `None` returns `None`; a dict
computes `seconds + nanoseconds / 1e9`, which raises `TypeError` (modelled
as `Except.error`) unless both retrieved values are numbers; a native
timestamp object returns `ts.timestamp()`; any other value returns `None`. -/
def firestore_timestamp_to_datetime : TSInput → Except String (Option ℚ)
  | .null => Except.ok none
  | .dict entries =>
      match secondsOf entries, nanosOf entries with
      | .num s, .num n => Except.ok (some (s + n / 1000000000))
      | _, _ => Except.error "TypeError"
  | .native epoch => Except.ok (some epoch)
  | .other => Except.ok none

example : (get_reconstruction_signals []).has_ar_events = false := rfl

example :
    reconstruct_group { has_ar_events := true, has_high_variety_exclusive := true } =
      (some 4, "ar_events + high_variety_products", 1) := by
  norm_num [reconstruct_group]

example :
    (reconstructRow { group := none,
                      events := [{ e := "view_page", p := some (.str "gallery"), t := 0 },
                                 { e := "scroll_to_bottom", t := 1000 }] }).group_final
      = some 1 := by
  simp [reconstructRow, get_reconstruction_signals, scrollFixup, signalsStep,
    productTouchStep, scrollTimeStep, galleryTimeStep, groupEventStep, arSigStep,
    addProductSignal, coercedPid, reconstruct_group, PyVal.truthy, pyInt]

/-! ### Projection lemmas for the signal-extraction loop -/

theorem arSigStep_gvt (s : Signals) (ev : Event) :
    (arSigStep s ev).gallery_view_time = s.gallery_view_time := by
  unfold arSigStep; split <;> rfl

theorem arSigStep_sbt (s : Signals) (ev : Event) :
    (arSigStep s ev).scroll_to_bottom_time = s.scroll_to_bottom_time := by
  unfold arSigStep; split <;> rfl

theorem groupEventStep_gvt (s : Signals) (ev : Event) :
    (groupEventStep s ev).gallery_view_time = s.gallery_view_time := by
  unfold groupEventStep; split <;> rfl

theorem groupEventStep_sbt (s : Signals) (ev : Event) :
    (groupEventStep s ev).scroll_to_bottom_time = s.scroll_to_bottom_time := by
  unfold groupEventStep; split <;> rfl

theorem galleryTimeStep_sbt (s : Signals) (ev : Event) :
    (galleryTimeStep s ev).scroll_to_bottom_time = s.scroll_to_bottom_time := by
  unfold galleryTimeStep; split <;> rfl

theorem scrollTimeStep_gvt (s : Signals) (ev : Event) :
    (scrollTimeStep s ev).gallery_view_time = s.gallery_view_time := by
  unfold scrollTimeStep; split <;> rfl

theorem addProductSignal_gvt (s : Signals) (pid : ℤ) :
    (addProductSignal s pid).gallery_view_time = s.gallery_view_time := by
  unfold addProductSignal; split <;> rfl

theorem addProductSignal_sbt (s : Signals) (pid : ℤ) :
    (addProductSignal s pid).scroll_to_bottom_time = s.scroll_to_bottom_time := by
  unfold addProductSignal; split <;> rfl

theorem productTouchStep_gvt (s : Signals) (ev : Event) :
    (productTouchStep s ev).gallery_view_time = s.gallery_view_time := by
  unfold productTouchStep
  cases hc : coercedPid ev.p <;>
    split_ifs <;> simp [addProductSignal_gvt]

theorem productTouchStep_sbt (s : Signals) (ev : Event) :
    (productTouchStep s ev).scroll_to_bottom_time = s.scroll_to_bottom_time := by
  unfold productTouchStep
  cases hc : coercedPid ev.p <;>
    split_ifs <;> simp [addProductSignal_sbt]

/-- An event the `gallery_view_time` branch fires on. -/
def isGalleryView (ev : Event) : Prop :=
  ev.e = "view_page" ∧ ev.p = some (.str "gallery")

instance (ev : Event) : Decidable (isGalleryView ev) := by
  unfold isGalleryView; infer_instance

/-- An event the `scroll_to_bottom_time` branch fires on. -/
def isScrollBottom (ev : Event) : Prop := ev.e = "scroll_to_bottom"

instance (ev : Event) : Decidable (isScrollBottom ev) := by
  unfold isScrollBottom; infer_instance

/-- The timestamp of the last event satisfying `p`, or `none`. -/
def lastTimeWhere (p : Event → Prop) [DecidablePred p] : List Event → Option ℚ
  | [] => none
  | ev :: evs =>
      match lastTimeWhere p evs with
      | some t => some t
      | none => if p ev then some ev.t else none

theorem signalsStep_gvt (s : Signals) (ev : Event) :
    (signalsStep s ev).gallery_view_time =
      if isGalleryView ev then some ev.t else s.gallery_view_time := by
  unfold signalsStep isGalleryView
  rw [productTouchStep_gvt, scrollTimeStep_gvt]
  unfold galleryTimeStep
  split <;> simp_all [arSigStep_gvt, groupEventStep_gvt]

theorem signalsStep_sbt (s : Signals) (ev : Event) :
    (signalsStep s ev).scroll_to_bottom_time =
      if isScrollBottom ev then some ev.t else s.scroll_to_bottom_time := by
  unfold signalsStep isScrollBottom
  rw [productTouchStep_sbt]
  unfold scrollTimeStep
  split <;> simp_all [arSigStep_sbt, groupEventStep_sbt, galleryTimeStep_sbt]

theorem foldl_signalsStep_gvt (events : List Event) (s : Signals) :
    (events.foldl signalsStep s).gallery_view_time =
      match lastTimeWhere isGalleryView events with
      | some t => some t
      | none => s.gallery_view_time := by
  induction events generalizing s with
  | nil => simp [lastTimeWhere]
  | cons ev evs ih =>
      rw [List.foldl_cons, ih]
      cases h : lastTimeWhere isGalleryView evs
      · by_cases hg : isGalleryView ev <;>
          simp [lastTimeWhere, h, signalsStep_gvt, hg]
      · simp [lastTimeWhere, h]

theorem foldl_signalsStep_sbt (events : List Event) (s : Signals) :
    (events.foldl signalsStep s).scroll_to_bottom_time =
      match lastTimeWhere isScrollBottom events with
      | some t => some t
      | none => s.scroll_to_bottom_time := by
  induction events generalizing s with
  | nil => simp [lastTimeWhere]
  | cons ev evs ih =>
      rw [List.foldl_cons, ih]
      cases h : lastTimeWhere isScrollBottom evs
      · by_cases hg : isScrollBottom ev <;>
          simp [lastTimeWhere, h, signalsStep_sbt, hg]
      · simp [lastTimeWhere, h]

theorem scrollFixup_gvt (s : Signals) :
    (scrollFixup s).gallery_view_time = s.gallery_view_time := by
  unfold scrollFixup; split <;> rfl

theorem scrollFixup_sbt (s : Signals) :
    (scrollFixup s).scroll_to_bottom_time = s.scroll_to_bottom_time := by
  unfold scrollFixup; split <;> rfl

/-! ### Projection lemmas for the metrics-extraction loop -/

theorem pageStep_products (st : MState) (ev : Event) :
    (pageStep st ev).products_viewed = st.products_viewed := by
  unfold pageStep; split <;> rfl

theorem pageStep_ar_durations (st : MState) (ev : Event) :
    (pageStep st ev).ar_durations = st.ar_durations := by
  unfold pageStep; split <;> rfl

theorem pageStep_ar_count (st : MState) (ev : Event) :
    (pageStep st ev).ar_session_count = st.ar_session_count := by
  unfold pageStep; split <;> rfl

theorem viewStep_products (st : MState) (ev : Event) :
    (viewStep st ev).products_viewed =
      if ev.e = "view" then
        match coercedPid ev.p with
        | some pid => insert pid st.products_viewed
        | none => st.products_viewed
      else st.products_viewed := by
  unfold viewStep
  split
  · cases hc : coercedPid ev.p <;> rfl
  · rfl

theorem viewStep_ar_durations (st : MState) (ev : Event) :
    (viewStep st ev).ar_durations = st.ar_durations := by
  unfold viewStep
  split
  · cases hc : coercedPid ev.p <;> rfl
  · rfl

theorem viewStep_ar_count (st : MState) (ev : Event) :
    (viewStep st ev).ar_session_count = st.ar_session_count := by
  unfold viewStep
  split
  · cases hc : coercedPid ev.p <;> rfl
  · rfl

theorem arStep_products (st : MState) (ev : Event) :
    (arStep st ev).products_viewed = st.products_viewed := by
  unfold arStep; split <;> rfl

theorem arStep_ar_durations (st : MState) (ev : Event) :
    (arStep st ev).ar_durations =
      if ev.e = "ar_end" ∧ ev.d ≠ 0 then st.ar_durations ++ [ev.d / 1000]
      else st.ar_durations := by
  unfold arStep
  split_ifs with h1 h2 h3 <;> simp_all

theorem arStep_ar_count (st : MState) (ev : Event) :
    (arStep st ev).ar_session_count =
      if ev.e = "ar_end" then st.ar_session_count + 1 else st.ar_session_count := by
  unfold arStep; split <;> simp_all

theorem cartStep_products (st : MState) (ev : Event) :
    (cartStep st ev).products_viewed = st.products_viewed := by
  unfold cartStep; split <;> split <;> rfl

theorem cartStep_ar_durations (st : MState) (ev : Event) :
    (cartStep st ev).ar_durations = st.ar_durations := by
  unfold cartStep; split <;> split <;> rfl

theorem cartStep_ar_count (st : MState) (ev : Event) :
    (cartStep st ev).ar_session_count = st.ar_session_count := by
  unfold cartStep; split <;> split <;> rfl

theorem scrollStep_products (st : MState) (ev : Event) :
    (scrollStep st ev).products_viewed = st.products_viewed := by
  unfold scrollStep; split <;> rfl

theorem scrollStep_ar_durations (st : MState) (ev : Event) :
    (scrollStep st ev).ar_durations = st.ar_durations := by
  unfold scrollStep; split <;> rfl

theorem scrollStep_ar_count (st : MState) (ev : Event) :
    (scrollStep st ev).ar_session_count = st.ar_session_count := by
  unfold scrollStep; split <;> rfl

/-- The set of product ids `extract_event_metrics` accumulates: coerced ids
of `view` events only. -/
def viewedProductIds (events : List Event) : Finset ℤ :=
  (events.filterMap (fun ev => if ev.e = "view" then coercedPid ev.p else none)).toFinset

theorem metricsStep_products (st : MState) (ev : Event) :
    (metricsStep st ev).products_viewed =
      if ev.e = "view" then
        match coercedPid ev.p with
        | some pid => insert pid st.products_viewed
        | none => st.products_viewed
      else st.products_viewed := by
  unfold metricsStep
  rw [scrollStep_products, cartStep_products, arStep_products, viewStep_products,
    pageStep_products]

theorem foldl_metricsStep_products (events : List Event) (st : MState) :
    (events.foldl metricsStep st).products_viewed =
      st.products_viewed ∪ viewedProductIds events := by
  induction events generalizing st with
  | nil => simp [viewedProductIds]
  | cons ev evs ih =>
      rw [List.foldl_cons, ih, metricsStep_products]
      by_cases hv : ev.e = "view"
      · cases hc : coercedPid ev.p <;>
          simp [viewedProductIds, List.filterMap_cons, hv, hc, Finset.insert_union]
      · simp [viewedProductIds, List.filterMap_cons, hv]

/-- The duration list `extract_event_metrics` accumulates: `d / 1000` for
each `ar_end` event with nonzero reported duration, in order. -/
def arDurList : List Event → List ℚ
  | [] => []
  | ev :: evs =>
      (if ev.e = "ar_end" ∧ ev.d ≠ 0 then [ev.d / 1000] else []) ++ arDurList evs

theorem metricsStep_ar_durations (st : MState) (ev : Event) :
    (metricsStep st ev).ar_durations =
      st.ar_durations ++ (if ev.e = "ar_end" ∧ ev.d ≠ 0 then [ev.d / 1000] else []) := by
  unfold metricsStep
  rw [scrollStep_ar_durations, cartStep_ar_durations, arStep_ar_durations,
    viewStep_ar_durations, pageStep_ar_durations]
  split <;> simp

theorem metricsStep_ar_count (st : MState) (ev : Event) :
    (metricsStep st ev).ar_session_count =
      if ev.e = "ar_end" then st.ar_session_count + 1 else st.ar_session_count := by
  unfold metricsStep
  rw [scrollStep_ar_count, cartStep_ar_count, arStep_ar_count, viewStep_ar_count,
    pageStep_ar_count]

theorem foldl_metricsStep_ar_durations (events : List Event) (st : MState) :
    (events.foldl metricsStep st).ar_durations = st.ar_durations ++ arDurList events := by
  induction events generalizing st with
  | nil => simp [arDurList]
  | cons ev evs ih =>
      rw [List.foldl_cons, ih, metricsStep_ar_durations, arDurList,
        List.append_assoc]

theorem arDurList_eq_nil_iff (events : List Event) :
    arDurList events = [] ↔ ∀ ev ∈ events, ¬(ev.e = "ar_end" ∧ ev.d ≠ 0) := by
  induction events with
  | nil => simp [arDurList]
  | cons ev evs ih =>
      by_cases h : ev.e = "ar_end" ∧ ev.d ≠ 0
      · simp [arDurList, h]
      · simp [arDurList, h, ih]
        intro _ he
        by_contra hd
        exact h ⟨he, hd⟩

/-! ### Claim theorems -/

/-- C1: every invocation of the session-tabulation pipeline fails for every
input.  `merge_group_fields` is not among the top-level bindings of
`utils/group_reconstruction.py`, so the module-level
`from .group_reconstruction import merge_group_fields` in
`utils/data_processing.py` raises `ImportError`, and every call to
`sessions_to_dataframe` or `create_derived_variables` therefore raises
instead of producing a table. -/
theorem c1_pipeline_always_fails :
    group_reconstruction_names.contains "merge_group_fields" = false ∧
    (∀ sessions : List Session,
      run_sessions_to_dataframe sessions = Except.error "ImportError") ∧
    (∀ rows : List Session,
      run_create_derived_variables rows = Except.error "ImportError") :=
  ⟨rfl, fun _ => rfl, fun _ => rfl⟩

/-- The mapping the claims state for `(variety, ar_enabled)`:
1 ↦ (low, false), 2 ↦ (low, true), 3 ↦ (high, false), 4 ↦ (high, true),
anything else (including absent) ↦ (absent, absent). -/
def groupConditionMap (g : Option ℤ) : Option String × Option Bool :=
  if g = some 1 then (some "low", some false)
  else if g = some 2 then (some "low", some true)
  else if g = some 3 then (some "high", some false)
  else if g = some 4 then (some "high", some true)
  else (none, none)

/-- The concrete session of the C2 counterexample: no explicit `group`, a
gallery page view at t = 0 and a scroll-to-bottom at t = 1000 (a fast
scroll the cascade maps to group 1). -/
def c2session : Session :=
  { group := none,
    events := [{ e := "view_page", p := some (.str "gallery"), t := 0 },
               { e := "scroll_to_bottom", t := 1000 }] }

/-- C2 counterexample: a session with no explicit `group` whose events
reconstruct to group 1.  `reconstruct_groups` gives the row
`group_final = 1`, yet `create_derived_variables` computes `variety` and
`ar_enabled` from the raw `group` column, so both come out absent — not
`(low, false)` as the claim requires for `group_final = 1`. -/
theorem c2_counterexample :
    (reconstructRow c2session).group_final = some 1 ∧
    varietyOf c2session.group = none ∧
    arEnabledOf c2session.group = none ∧
    groupConditionMap (some 1) = (some "low", some false) := by
  refine ⟨?_, rfl, rfl, rfl⟩
  simp [c2session, reconstructRow, get_reconstruction_signals, scrollFixup, signalsStep,
    productTouchStep, scrollTimeStep, galleryTimeStep, groupEventStep, arSigStep,
    addProductSignal, coercedPid, reconstruct_group, PyVal.truthy, pyInt]

/-- C2 (amended): for every row of the derived table, the pair
`(variety, ar_enabled)` is the deterministic image of the raw `group`
column (not of `group_final`): group 1 ↦ (low, false), 2 ↦ (low, true),
3 ↦ (high, false), 4 ↦ (high, true), and any other value of `group`
(including absent) yields both absent — even when `group_final` carries a
reconstructed value in {1,2,3,4}. -/
theorem c2_variety_ar_from_group (g : Option ℤ) :
    (varietyOf g, arEnabledOf g) = groupConditionMap g := by
  unfold varietyOf arEnabledOf groupConditionMap
  split_ifs <;> simp_all

/-- C3: `group_final` equals the explicit `group` when it is present (and
non-null — `pd.notna`), else `group_reconstructed`; and whenever `group`
is present, `reconstruction_method = "original"` and
`reconstruction_confidence = 1.0` regardless of what the cascade computed. -/
theorem c3_group_final_precedence (s : Session) :
    ((reconstructRow s).group_final =
      match s.group with
      | some g => some g
      | none => (reconstructRow s).group_reconstructed) ∧
    (∀ g : ℤ, s.group = some g →
      (reconstructRow s).group_final = some g ∧
      (reconstructRow s).reconstruction_method = "original" ∧
      (reconstructRow s).reconstruction_confidence = 1) := by
  cases hg : s.group <;> simp [reconstructRow, hg]

/-- Witness for C3 at a concrete session whose explicit label 3 differs
from what the cascade would compute (its AR events would yield group 2). -/
theorem c3_witness :
    (reconstructRow { group := some 3, events := [{ e := "ar_start" }] }).group_final
        = some 3 ∧
    (reconstructRow { group := some 3, events := [{ e := "ar_start" }] }).reconstruction_method
        = "original" ∧
    (reconstructRow { group := some 3, events := [{ e := "ar_start" }] }).reconstruction_confidence
        = 1 :=
  (c3_group_final_precedence _).2 3 rfl

/-- C4 counterexample: with `group_from_event = 2` the engine returns the
group verbatim with confidence 1.0, but the method tag is
`"group_assigned_event"`, not `"explicit_event"` as the claim states. -/
theorem c4_counterexample :
    reconstruct_group { group_from_event := some 2 } =
      (some 2, "group_assigned_event", 1) ∧
    reconstruct_group { group_from_event := some 2 } ≠
      (some 2, "explicit_event", 1) := by
  constructor
  · rfl
  · simp [reconstruct_group]

/-- C4 (amended): whenever `group_from_event` is present, the engine
returns it verbatim with method tag `"group_assigned_event"` (not
`"explicit_event"`) and confidence 1.0. -/
theorem c4_explicit_event_rule (signals : Signals) (g : ℤ)
    (h : signals.group_from_event = some g) :
    reconstruct_group signals = (some g, "group_assigned_event", 1) := by
  unfold reconstruct_group
  rw [h]

/-- Witness for C4 at a concrete signal bundle. -/
theorem c4_witness :
    ({ group_from_event := some 7 } : Signals).group_from_event = some 7 ∧
    reconstruct_group { group_from_event := some 7 } =
      (some 7, "group_assigned_event", 1) :=
  ⟨rfl, c4_explicit_event_rule _ 7 rfl⟩

/-- C8 counterexample: a signal bundle with both flags set but also
`group_from_event = 1` — the higher-priority explicit-event rule returns
`(1, "group_assigned_event", 1.0)`, not `(4, "ar_events +
high_variety_products", 1.0)`, so the claim fails unqualified over all
signal bundles. -/
theorem c8_counterexample :
    reconstruct_group { group_from_event := some 1, has_ar_events := true,
                        has_high_variety_exclusive := true } =
      (some 1, "group_assigned_event", 1) ∧
    ((some 1, "group_assigned_event", 1) : Option ℤ × String × ℚ) ≠
      (some 4, "ar_events + high_variety_products", 1) := by
  exact ⟨rfl, by simp⟩

/-- C8 (amended): for every signal bundle with `group_from_event` absent,
`has_ar_events = true` and `has_high_variety_exclusive = true`, the engine
returns exactly `(4, "ar_events + high_variety_products", 1.0)`; no
lower-priority rule can override it. -/
theorem c8_ar_high_variety_rule (signals : Signals)
    (h0 : signals.group_from_event = none)
    (h1 : signals.has_ar_events = true)
    (h2 : signals.has_high_variety_exclusive = true) :
    reconstruct_group signals = (some 4, "ar_events + high_variety_products", 1) := by
  unfold reconstruct_group
  rw [h0]
  simp [h1, h2]

/-- Witness for C8 at a concrete signal bundle. -/
theorem c8_witness :
    ({ has_ar_events := true, has_high_variety_exclusive := true } : Signals).group_from_event
        = none ∧
    reconstruct_group { has_ar_events := true, has_high_variety_exclusive := true } =
      (some 4, "ar_events + high_variety_products", 1) :=
  ⟨rfl, c8_ar_high_variety_rule _ rfl rfl rfl⟩

/-- The product-id set described verbatim by claim C5: ids appearing in
`view`, `cart_add_detail`, `cart_add_gallery`, or `cart_remove` events,
with ids failing integer coercion silently skipped. -/
def claimedProductIds (events : List Event) : Finset ℤ :=
  (events.filterMap (fun ev =>
    if ev.e = "view" ∨ ev.e = "cart_add_detail" ∨ ev.e = "cart_add_gallery" ∨
        ev.e = "cart_remove"
    then ev.p.bind pyInt else none)).toFinset

/-- The concrete event list of the C5 counterexample: a `view` of product
id 0 (coercible but falsy, hence skipped by the code) and a
`cart_add_detail` of product id 5 (counted by the claim, ignored by the
metrics extractor). -/
def c5events : List Event :=
  [{ e := "view", p := some (.int 0) },
   { e := "cart_add_detail", p := some (.int 5) }]

/-- C5 counterexample: on `c5events` the claim counts the ids {0, 5}, but
`extract_event_metrics` reports 0 unique products — cart events never feed
the metric, and the falsy id 0 is skipped before coercion. -/
theorem c5_counterexample :
    (extract_event_metrics c5events).unique_products_viewed = 0 ∧
    (claimedProductIds c5events).card = 2 ∧
    (extract_event_metrics c5events).unique_products_viewed ≠
      (claimedProductIds c5events).card := by
  refine ⟨rfl, ?_, ?_⟩ <;> decide

/-- C5 (amended): `unique_products_viewed` is the cardinality of the set of
product ids appearing in `view` events only (cart events do not
contribute), where an id that is falsy (0, empty string, absent) or fails
integer coercion is silently skipped. -/
theorem c5_unique_products (events : List Event) :
    (extract_event_metrics events).unique_products_viewed =
      (viewedProductIds events).card := by
  unfold extract_event_metrics
  split
  next h => subst h; simp [viewedProductIds]
  next h => simp [foldl_metricsStep_products]

/-- The concrete event list of the C6 counterexample: two gallery views
(t = 100, 200) and two scroll-to-bottom events (t = 300, 400). -/
def c6events : List Event :=
  [{ e := "view_page", p := some (.str "gallery"), t := 100 },
   { e := "view_page", p := some (.str "gallery"), t := 200 },
   { e := "scroll_to_bottom", t := 300 },
   { e := "scroll_to_bottom", t := 400 }]

/-- C6 counterexample: the recorded timestamps are those of the *last*
gallery view (200) and *last* scroll (400), not the first occurrences
(100, 300) the claim states. -/
theorem c6_counterexample :
    (get_reconstruction_signals c6events).gallery_view_time = some 200 ∧
    (get_reconstruction_signals c6events).scroll_to_bottom_time = some 400 ∧
    (get_reconstruction_signals c6events).gallery_view_time ≠ some 100 ∧
    (get_reconstruction_signals c6events).scroll_to_bottom_time ≠ some 300 := by
  have hg : (get_reconstruction_signals c6events).gallery_view_time = some 200 := by
    rw [get_reconstruction_signals, if_neg (by simp [c6events]), scrollFixup_gvt,
      foldl_signalsStep_gvt]
    simp [c6events, lastTimeWhere, isGalleryView]
  have hs : (get_reconstruction_signals c6events).scroll_to_bottom_time = some 400 := by
    rw [get_reconstruction_signals, if_neg (by simp [c6events]), scrollFixup_sbt,
      foldl_signalsStep_sbt]
    simp [c6events, lastTimeWhere, isScrollBottom]
  refine ⟨hg, hs, ?_, ?_⟩
  · rw [hg]; simp
  · rw [hs]; simp

/-- C6 (amended): `gallery_view_time` and `scroll_to_bottom_time` are the
timestamps of the *last* gallery page-view event and the *last*
scroll-to-bottom event respectively — each occurrence overwrites the
previously recorded timestamp. -/
theorem c6_last_occurrence (events : List Event) :
    (get_reconstruction_signals events).gallery_view_time =
      lastTimeWhere isGalleryView events ∧
    (get_reconstruction_signals events).scroll_to_bottom_time =
      lastTimeWhere isScrollBottom events := by
  refine ⟨?_, ?_⟩ <;> unfold get_reconstruction_signals <;> split
  · next h => subst h; simp [lastTimeWhere]
  · rw [scrollFixup_gvt, foldl_signalsStep_gvt]
    cases h2 : lastTimeWhere isGalleryView events <;> simp
  · next h => subst h; simp [lastTimeWhere]
  · rw [scrollFixup_sbt, foldl_signalsStep_sbt]
    cases h2 : lastTimeWhere isScrollBottom events <;> simp

/-- C9 counterexample: a single `ar_end` event with no reported duration.
`ar_session_count` comes out 1 (one AR session), yet
`avg_ar_duration_sec` is absent — contradicting "absent exactly when the
sequence contains zero AR sessions". -/
theorem c9_counterexample :
    (extract_event_metrics [{ e := "ar_end" }]).ar_session_count = 1 ∧
    (extract_event_metrics [{ e := "ar_end" }]).avg_ar_duration_sec = none := by
  constructor <;> rfl

/-- C9 (amended): `avg_ar_duration_sec` is the arithmetic mean of the
per-session durations `d / 1000` over `ar_end` events carrying a nonzero
duration, and it is absent exactly when no `ar_end` event carries a
nonzero duration (so it can be absent even when AR sessions occurred);
the mean is only ever taken over a non-empty list, so the code never
divides by zero. -/
theorem c9_avg_ar_duration (events : List Event) :
    ((extract_event_metrics events).avg_ar_duration_sec =
      if arDurList events = [] then none else some (listMean (arDurList events))) ∧
    ((extract_event_metrics events).avg_ar_duration_sec = none ↔
      ∀ ev ∈ events, ¬(ev.e = "ar_end" ∧ ev.d ≠ 0)) := by
  have h1 : (extract_event_metrics events).avg_ar_duration_sec =
      if arDurList events = [] then none else some (listMean (arDurList events)) := by
    unfold extract_event_metrics
    split
    next h => subst h; simp [arDurList]
    next h =>
      simp only [foldl_metricsStep_ar_durations]
      by_cases hX : arDurList events = [] <;> simp [hX]
  refine ⟨h1, ?_⟩
  by_cases hX : arDurList events = []
  · rw [h1, if_pos hX]
    simpa using (arDurList_eq_nil_iff events).mp hX
  · rw [h1, if_neg hX]
    simp only [reduceCtorEq, false_iff] at *
    rw [← arDurList_eq_nil_iff]
    exact hX

/-- C7 counterexample: a mapping whose `_seconds` value is the string
`"oops"` makes the addition raise `TypeError` (the exception propagates),
and the empty mapping yields `0.0` — a real epoch value, not the missing
sentinel — because both keys default to 0. -/
theorem c7_counterexample :
    firestore_timestamp_to_datetime (.dict [("_seconds", .str "oops")]) =
      Except.error "TypeError" ∧
    firestore_timestamp_to_datetime (.dict []) = Except.ok (some 0) ∧
    (Except.ok (some (0 : ℚ)) ≠ (Except.ok none : Except String (Option ℚ))) := by
  refine ⟨rfl, ?_, by simp⟩
  have h : ((0 : ℚ) + 0 / 1000000000) = 0 := by norm_num
  simp [firestore_timestamp_to_datetime, secondsOf, nanosOf, tsGet, h]

/-- C7 (amended): null and non-mapping unrecognized shapes normalize to the
missing sentinel and native timestamp objects to their epoch value, but a
mapping is always summed as `seconds + nanoseconds / 1e9` with defaults of
0 — so a mapping without the recognized keys yields `0.0` rather than
missing — and the function raises `TypeError` (the only way it raises)
exactly on a mapping whose retrieved second/nanosecond values are not both
numbers. -/
theorem c7_timestamp_normalizer :
    (firestore_timestamp_to_datetime TSInput.null = Except.ok none) ∧
    (firestore_timestamp_to_datetime TSInput.other = Except.ok none) ∧
    (∀ q : ℚ, firestore_timestamp_to_datetime (TSInput.native q) = Except.ok (some q)) ∧
    (∀ entries s n, secondsOf entries = TSVal.num s → nanosOf entries = TSVal.num n →
      firestore_timestamp_to_datetime (TSInput.dict entries) =
        Except.ok (some (s + n / 1000000000))) ∧
    (∀ ts, (∃ msg, firestore_timestamp_to_datetime ts = Except.error msg) ↔
      ∃ entries, ts = TSInput.dict entries ∧
        ¬∃ s n, secondsOf entries = TSVal.num s ∧ nanosOf entries = TSVal.num n) := by
  refine ⟨rfl, rfl, fun q => rfl, ?_, ?_⟩
  · intro entries s n hs hn
    simp only [firestore_timestamp_to_datetime]
    rw [hs, hn]
  · intro ts
    cases ts with
    | null => simp [firestore_timestamp_to_datetime]
    | native q => simp [firestore_timestamp_to_datetime]
    | other => simp [firestore_timestamp_to_datetime]
    | dict entries =>
        cases hs : secondsOf entries <;> cases hn : nanosOf entries <;>
          simp [firestore_timestamp_to_datetime, hs, hn]

/-- Witness for C7 at a concrete mapping carrying only `_seconds`. -/
theorem c7_witness :
    secondsOf [("_seconds", TSVal.num 3)] = TSVal.num 3 ∧
    nanosOf [("_seconds", TSVal.num 3)] = TSVal.num 0 ∧
    firestore_timestamp_to_datetime (TSInput.dict [("_seconds", TSVal.num 3)]) =
      Except.ok (some (3 + 0 / 1000000000)) :=
  ⟨rfl, rfl, c7_timestamp_normalizer.2.2.2.1 _ 3 0 rfl rfl⟩

theorem dropIfPresent_cols {α : Type} (df : DataFrame α) (col : String) :
    (dropIfPresent df col).cols = df.cols.filter (fun c => c.1 ≠ col) := by
  unfold dropIfPresent DataFrame.dropColumn DataFrame.hasColumn
  split_ifs with h
  · rfl
  · symm
    apply List.filter_eq_self.mpr
    intro a ha
    simp only [List.any_eq_true, decide_eq_true_eq, not_exists] at h
    simpa using fun hcontra => (h a) ⟨ha, hcontra⟩

/-- C10: exporting with `include_events = False` drops exactly the
`events` and `final_cart` columns: the serialized output is the rendering
of the frame whose columns are those of the input minus the two, every
other column is kept with its values (hence its length — the row count —
and contents) unchanged, and no column outside the input appears. -/
theorem c10_csv_export (df : DataFrame String) :
    ((export_to_csv_frame df false).cols =
      df.cols.filter (fun c => c.1 ≠ "events" ∧ c.1 ≠ "final_cart")) ∧
    (export_to_csv df false =
      to_csv ⟨df.cols.filter (fun c => c.1 ≠ "events" ∧ c.1 ≠ "final_cart")⟩) ∧
    (∀ c ∈ df.cols, c.1 ≠ "events" → c.1 ≠ "final_cart" →
      c ∈ (export_to_csv_frame df false).cols) ∧
    (∀ c ∈ (export_to_csv_frame df false).cols, c ∈ df.cols) := by
  have hframe : (export_to_csv_frame df false).cols =
      df.cols.filter (fun c => c.1 ≠ "events" ∧ c.1 ≠ "final_cart") := by
    show (dropIfPresent (dropIfPresent df "events") "final_cart").cols = _
    rw [dropIfPresent_cols, dropIfPresent_cols, List.filter_filter]
    apply List.filter_congr
    intro a _
    by_cases h1 : a.1 = "events" <;> by_cases h2 : a.1 = "final_cart" <;>
      simp [h1, h2]
  have hfr2 : export_to_csv_frame df false =
      (⟨df.cols.filter (fun c => c.1 ≠ "events" ∧ c.1 ≠ "final_cart")⟩ : DataFrame String) := by
    calc export_to_csv_frame df false
        = ⟨(export_to_csv_frame df false).cols⟩ := rfl
      _ = _ := by rw [hframe]
  refine ⟨hframe, congrArg to_csv hfr2, ?_, ?_⟩
  · intro c hc h1 h2
    rw [hframe]
    exact List.mem_filter.mpr ⟨hc, by simp [h1, h2]⟩
  · intro c hc
    rw [hframe] at hc
    exact (List.mem_filter.mp hc).1

/-- The concrete frame of the C10 witness. -/
def c10df : DataFrame String :=
  ⟨[("session_id", ["a", "b"]), ("events", ["e1", "e2"]),
    ("final_cart", ["c1", "c2"]), ("pid", ["p1", "p2"])]⟩

/-- Witness for C10: the `session_id` column survives the export of
`c10df` untouched. -/
theorem c10_witness :
    ("session_id", ["a", "b"]) ∈ c10df.cols ∧
    (("session_id" : String) ≠ "events") ∧
    (("session_id" : String) ≠ "final_cart") ∧
    ("session_id", ["a", "b"]) ∈ (export_to_csv_frame c10df false).cols :=
  ⟨by simp [c10df], by decide, by decide,
    (c10_csv_export c10df).2.2.1 _ (by simp [c10df]) (by decide) (by decide)⟩

/-- Witness for C2 at the concrete value `group = 2`. -/
theorem c2_witness :
    (varietyOf (some 2), arEnabledOf (some 2)) = (some "low", some true) := by
  have h := c2_variety_ar_from_group (some 2)
  simpa [groupConditionMap] using h

/-- Witness for C5 at the concrete counterexample event list. -/
theorem c5_witness :
    (extract_event_metrics c5events).unique_products_viewed =
      (viewedProductIds c5events).card :=
  c5_unique_products c5events

/-- Witness for C6 at the concrete counterexample event list. -/
theorem c6_witness :
    (get_reconstruction_signals c6events).gallery_view_time =
      lastTimeWhere isGalleryView c6events :=
  (c6_last_occurrence c6events).1

/-- Witness for C9 at a single `ar_end` event of duration 2000 ms. -/
theorem c9_witness :
    (extract_event_metrics [{ e := "ar_end", d := 2000 }]).avg_ar_duration_sec =
      (if arDurList [{ e := "ar_end", d := 2000 }] = [] then none
       else some (listMean (arDurList [{ e := "ar_end", d := 2000 }]))) :=
  (c9_avg_ar_duration _).1
